import Mathlib

/-!
Verification of the LVGL websocket display driver
(`components/lvgl_esp32_drivers/websocket_driver.c` and `main/main.c`).

The development shallowly embeds the driver's data model and operations:
machine integers become `Nat` with explicit `% 2^w` where a C cast or a
store into a narrower type truncates, the static scratch buffer `msg_buf`
becomes a `List Nat` of byte values, and the driver's global state
(`websocket_connected`, the client table of the websocket server, the
scratch buffer and the shared pointer value) becomes an explicit
`ServerState` threaded through the operations.  External collaborators
that are not part of the repository sources (LVGL, the websocket server
component) are modelled from the specification where a claim needs them;
each such definition carries a doc comment starting `Modelled from the
spec:`.
-/

namespace WsDriver

/-! ## Constants from the source -/

/-- The constant `PIXEL_BUF_HEADER_LEN` from websocket_driver.c: length of the pixel
message header (depth tag, screen size and region coordinates). -/
def PIXEL_BUF_HEADER_LEN : Nat := 13

/-- The constant `WS_BUF_HEADER_MAX_LEN` from websocket_driver.c: worst-case websocket
frame header length. -/
def WS_BUF_HEADER_MAX_LEN : Nat := 10

/-- Modelled from the spec: `websocket.h` (the websocket server component)
is not under src/, so the bit layout of `ws_header_t` is taken from spec
4.1: the first frame-header byte always signals the final fragment of a
binary message (FIN bit set, RSV bits clear, binary opcode 0x2), i.e.
0x82, and the mask bit of the second byte is never set, so the second
byte is the 7-bit length field itself. -/
def WS_BYTE0_FIN_BIN : Nat := 0x82

/-! ## Pointer state and inbound messages -/

/-- The `pointer_t` value of websocket_driver.c (without the FreeRTOS
mutex handle, whose locking discipline is out of scope of a sequential
embedding): `flag` is a `uint8_t`, `x` and `y` are `uint16_t`. -/
structure Pointer where
  flag : Nat
  x : Nat
  y : Nat
deriving DecidableEq, Repr

/-- The `WEBSOCKET_TYPE_t` event discriminator of the websocket server
component, restricted to the arms `websocket_callback` distinguishes
(everything else falls into the C switch's default arm, modelled by
`OTHER`). -/
inductive WEBSOCKET_TYPE_t where
  | CONNECT
  | DISCONNECT_EXTERNAL
  | DISCONNECT_INTERNAL
  | DISCONNECT_ERROR
  | BIN
  | OTHER
deriving DecidableEq, Repr

/-- Modelled from the spec: `ws_is_connected` of the websocket server
component is not under src/; per spec 4.4 it tests whether a registry
slot is open.  A slot is a `Bool` (`true` = Open), the registry a
`List Bool` of length `WEBSOCKET_SERVER_MAX_CLIENTS`. -/
def ws_is_connected (clients : List Bool) (i : Nat) : Bool :=
  clients.getD i false

/-- Function `num_connected_clients` from websocket_driver.c: counts the open
slots of the websocket server's client table. -/
def num_connected_clients (clients : List Bool) : Nat :=
  (List.range clients.length).countP (fun i => ws_is_connected clients i)

/-- Result of one invocation of `websocket_callback`: the new value of
the `websocket_connected` global, the new shared pointer value, and
whether the handler invalidated the active screen
(`lv_obj_invalidate(lv_disp_get_scr_act(lv_disp_get_default()))`). -/
structure CallbackEffect where
  websocket_connected : Bool
  pointer : Pointer
  invalidate : Bool
deriving DecidableEq, Repr

/-- Function `websocket_callback` from websocket_driver.c.  `len` is the
`uint64_t` message length; the BIN arm compares `(uint32_t) len == 5`,
i.e. the length truncated to 32 bits.  Message bytes are read through
`(uint8_t)` casts, hence the `% 256`; the two coordinate bytes are
combined by `(hi << 8) | lo`, which equals `256 * hi + lo` because the
low byte is below 256. -/
def websocket_callback (clients : List Bool) (flag : Bool) (ptr : Pointer)
    (ty : WEBSOCKET_TYPE_t) (msg : List Nat) (len : Nat) : CallbackEffect :=
  match ty with
  | .CONNECT => ⟨true, ptr, true⟩
  | .DISCONNECT_EXTERNAL =>
      ⟨if num_connected_clients clients == 0 then false else flag, ptr, false⟩
  | .DISCONNECT_INTERNAL =>
      ⟨if num_connected_clients clients == 0 then false else flag, ptr, false⟩
  | .DISCONNECT_ERROR =>
      ⟨if num_connected_clients clients == 0 then false else flag, ptr, false⟩
  | .BIN =>
      if len % 4294967296 == 5 then
        ⟨flag,
         ⟨msg.getD 0 0 % 256,
          256 * (msg.getD 1 0 % 256) + msg.getD 2 0 % 256,
          256 * (msg.getD 3 0 % 256) + msg.getD 4 0 % 256⟩,
         false⟩
      else
        ⟨flag, ptr, false⟩
  | .OTHER => ⟨flag, ptr, false⟩

/-- The `lv_indev_data_t` fields `websocket_driver_read` fills in:
`point.x`/`point.y` are `int16_t` coordinates, `state` is the pressed
flag (`LV_INDEV_STATE_PR` modelled as `true`). -/
structure IndevData where
  x : Int
  y : Int
  pressed : Bool
deriving DecidableEq, Repr

/-- The `(int16_t)` cast applied to the stored `uint16_t` coordinates:
two's-complement reinterpretation of the low 16 bits. -/
def toInt16 (v : Nat) : Int :=
  if v % 65536 < 32768 then (v % 65536 : Int) else (v % 65536 : Int) - 65536

/-- Function `websocket_driver_read` from websocket_driver.c: copies the shared
pointer value into the `lv_indev_data_t` record and returns `false`
("no more data to read"). -/
def websocket_driver_read (ptr : Pointer) : IndevData × Bool :=
  (⟨toInt16 ptr.x, toInt16 ptr.y, !(ptr.flag == 0)⟩, false)

/-! ## Frame header codec (`set_msg_buf`) -/

/-- Function `set_msg_buf` from websocket_driver.c: fills the first bytes of
`msg_buf` with the websocket frame header for a payload of `msg_len`
bytes (`msg_len` is a `uint32_t`) and returns the position of the first
payload byte.  Returned here as the pair (bytes written at offset 0,
returned position).  The first byte is FIN|binary-opcode (see
`WS_BYTE0_FIN_BIN`); the second byte carries the 7-bit LEN field with
the mask bit clear. -/
def set_msg_buf (msg_len : Nat) : List Nat × Nat :=
  let lenField : Nat :=
    if msg_len ≤ 125 then msg_len
    else if msg_len < 65536 then 126
    else 127
  let pos : Nat :=
    if msg_len ≤ 125 then 2
    else if msg_len < 65536 then 4
    else 10
  let base : List Nat := [WS_BYTE0_FIN_BIN, lenField]
  let bytes : List Nat :=
    if lenField == 126 then
      base ++ [msg_len / 256 % 256, msg_len % 256]
    else if lenField == 127 then
      base ++ [0, 0, 0, 0,
               msg_len / 16777216 % 256, msg_len / 65536 % 256,
               msg_len / 256 % 256, msg_len % 256]
    else base
  (bytes, pos)

/-- Following the spec's words (4.1 Frame Header Codec), for comparison
with `set_msg_buf`: payload length ≤ 125 gives a 2-byte header with the
length in the second byte's low 7 bits; 126–65535 gives length field
126 plus 2 big-endian length bytes; above 65535 gives length field 127
plus 8 big-endian length bytes.  The first byte signals the final
fragment of a binary message and the mask bit is never set. -/
def buildHeaderSpec (L : Nat) : List Nat :=
  if L ≤ 125 then [0x82, L]
  else if L ≤ 65535 then [0x82, 126, L / 256 % 256, L % 256]
  else [0x82, 127,
        L / 72057594037927936 % 256, L / 281474976710656 % 256,
        L / 1099511627776 % 256, L / 4294967296 % 256,
        L / 16777216 % 256, L / 65536 % 256, L / 256 % 256, L % 256]

/-! ## Pixel packing -/

/-- Modelled from the spec: the LVGL color types are external to the
repository; per spec 4.2 / §3 PixelFormat, the 32-bit color is the
engine's packed RGBA8888 color with four 8-bit channels. -/
structure lv_color32_t where
  red : Nat
  green : Nat
  blue : Nat
  alpha : Nat
deriving DecidableEq, Repr

/-- Modelled from the spec: the 16-bit LVGL color, a packed RGB565 value
(`full` is the `uint16_t` holding it). -/
structure lv_color16_t where
  full : Nat
deriving DecidableEq, Repr

/-- Modelled from the spec: the 8-bit LVGL color, a packed RGB332 byte. -/
structure lv_color8_t where
  full : Nat
deriving DecidableEq, Repr

/-- The pixel buffer handed to `websocket_driver_flush`, tagged with the
compile-time `LV_COLOR_DEPTH` the driver was built for (the C code casts
`color_map` to the matching pointer type). -/
inductive PixelBuf where
  | p32 (px : List lv_color32_t)
  | p16 (px : List lv_color16_t)
  | p8 (px : List lv_color8_t)
deriving DecidableEq, Repr

/-- The `pixel_depth` global set by `websocket_driver_init` from
`LV_COLOR_DEPTH`. -/
def pixelDepth : PixelBuf → Nat
  | .p32 _ => 32
  | .p16 _ => 16
  | .p8 _ => 8

/-- The value of `sizeof(lv_color_t)` for the compiled color depth. -/
def bytesPerPixel : PixelBuf → Nat
  | .p32 _ => 4
  | .p16 _ => 2
  | .p8 _ => 1

/-- Number of source pixels in the buffer. -/
def pixelCount : PixelBuf → Nat
  | .p32 px => px.length
  | .p16 px => px.length
  | .p8 px => px.length

/-- Structure `lv_area_t`: the damaged region's corner coordinates.  LVGL
coordinates are modelled as naturals (device pixel coordinates per spec
§3 DisplayRegion). -/
structure lv_area_t where
  x1 : Nat
  y1 : Nat
  x2 : Nat
  y2 : Nat
deriving DecidableEq, Repr

/-- Modelled from the spec: `lv_area_get_width` is an LVGL helper, not
under src/; per spec §3, width = x2 - x1 + 1. -/
def lv_area_get_width (a : lv_area_t) : Nat := a.x2 - a.x1 + 1

/-- Modelled from the spec: `lv_area_get_height` is an LVGL helper, not
under src/; per spec §3, height = y2 - y1 + 1. -/
def lv_area_get_height (a : lv_area_t) : Nat := a.y2 - a.y1 + 1

/-- The thirteen header bytes `websocket_driver_flush` stores through
`*buf++` before the pixel data: depth tag, then screen width, screen
height, x1, y1, x2, y2, each as `(v >> 8) & 0xFF` followed by
`v & 0xFF`. -/
def load_pix_header (depth w h : Nat) (area : lv_area_t) : List Nat :=
  [depth % 256,
   w / 256 % 256, w % 256,
   h / 256 % 256, h % 256,
   area.x1 / 256 % 256, area.x1 % 256,
   area.y1 / 256 % 256, area.y1 % 256,
   area.x2 / 256 % 256, area.x2 % 256,
   area.y2 / 256 % 256, area.y2 % 256]

/-- The pixel loop of `websocket_driver_flush`: one `*buf++` store per
encoded byte, iterating the source buffer in order.  32-bit pixels emit
red, green, blue, alpha; 16-bit pixels emit `full >> 8` then
`full & 0xFF`; 8-bit pixels emit `full` as-is.  Every store is into a
`uint8_t`, hence the `% 256`. -/
def loadPixels : PixelBuf → List Nat
  | .p32 px =>
      px.foldl (fun b c =>
        b ++ [c.red % 256, c.green % 256, c.blue % 256, c.alpha % 256]) []
  | .p16 px =>
      px.foldl (fun b c => b ++ [c.full / 256 % 256, c.full % 256]) []
  | .p8 px =>
      px.foldl (fun b c => b ++ [c.full % 256]) []

/-- The pixel message `websocket_driver_flush` places right after the
websocket frame header: the 13-byte pixel header followed by the encoded
pixels. -/
def pix_payload (w h : Nat) (area : lv_area_t) (pix : PixelBuf) : List Nat :=
  load_pix_header (pixelDepth pix) w h area ++ loadPixels pix

/-! ## Broadcast (`ws_send_nocopy_bin_all`) -/

/-- Modelled from the spec: `ws_disconnect_client` of the websocket
server component is not under src/; per spec 4.3 step 5 and 4.4
(`markClosed`), it transitions the slot to Closed / frees it, with no
further callback of its own. -/
def ws_disconnect_client (clients : List Bool) (i : Nat) : List Bool :=
  clients.set i false

/-- The loop state of `ws_send_nocopy_bin_all`: the running return value
`ret`, the mutable globals it touches (client table, `websocket_connected`
flag, shared pointer), and the observable I/O it performs — the slots on
which `netconn_write` was attempted, the slots whose write succeeded, and
the slots for which the `WEBSOCKET_DISCONNECT_ERROR` callback was
invoked. -/
structure BroadcastState where
  ret : Nat
  clients : List Bool
  flag : Bool
  pointer : Pointer
  attempts : List Nat
  written : List Nat
  errCallbacks : List Nat
deriving DecidableEq, Repr

/-- One iteration of the loop in `ws_send_nocopy_bin_all`, at slot `i`:
if the slot is connected, `netconn_write` is attempted (its success is
the environment parameter `writeOk i`); on success `ret` is incremented,
on failure the slot's `scallback` (i.e. `websocket_callback`) is invoked
with `WEBSOCKET_DISCONNECT_ERROR` — while the slot is still connected —
and only then is the slot freed by `ws_disconnect_client`. -/
def ws_send_step (writeOk : Nat → Bool) (st : BroadcastState) (i : Nat) :
    BroadcastState :=
  if ws_is_connected st.clients i then
    if writeOk i then
      { st with ret := st.ret + 1,
                attempts := st.attempts ++ [i],
                written := st.written ++ [i] }
    else
      let eff := websocket_callback st.clients st.flag st.pointer
                   .DISCONNECT_ERROR [] 0
      { st with flag := eff.websocket_connected,
                pointer := eff.pointer,
                clients := ws_disconnect_client st.clients i,
                attempts := st.attempts ++ [i],
                errCallbacks := st.errCallbacks ++ [i] }
  else st

/-- Function `ws_send_nocopy_bin_all` from websocket_driver.c: iterates every
slot of the client table in index order under the server mutex and
writes the scratch buffer to each connected client, disconnecting a
slot whose write fails and continuing with the next slot. -/
def ws_send_nocopy_bin_all (writeOk : Nat → Bool) (clients : List Bool)
    (flag : Bool) (ptr : Pointer) : BroadcastState :=
  List.foldl (ws_send_step writeOk) ⟨0, clients, flag, ptr, [], [], []⟩
    (List.range clients.length)

/-! ## The driver state and `websocket_driver_flush` -/

/-- The driver's mutable state: the `websocket_connected` global, the
websocket server's client table, the static scratch buffer `msg_buf`
(its length is the configured capacity
`DISP_BUF_SIZE * sizeof(lv_color_t) + STATIC_BUF_EXTRA_LEN`), and the
shared pointer value. -/
structure ServerState where
  websocket_connected : Bool
  clients : List Bool
  msg_buf : List Nat
  pointer : Pointer
deriving DecidableEq, Repr

/-- Function `websocket_driver_available` from websocket_driver.c: returns the
`websocket_connected` global. -/
def websocket_driver_available (s : ServerState) : Bool :=
  s.websocket_connected

/-- The observable effects of one `websocket_driver_flush` call:
`stored` is the byte string written into `msg_buf` starting at offset 0
(frame header followed by the pixel message; empty when the encoding
path was skipped), `attempts`/`written`/`errCallbacks` come from the
broadcast, and `flush_ready_calls` counts the `lv_disp_flush_ready`
invocations. -/
structure FlushOut where
  stored : List Nat
  attempts : List Nat
  written : List Nat
  errCallbacks : List Nat
  flush_ready_calls : Nat
deriving DecidableEq, Repr

/-- Function `websocket_driver_flush` from websocket_driver.c.  When
`websocket_connected` is set it computes the region's pixel count from
the area, builds the websocket frame header with `set_msg_buf` for a
payload of `size * sizeof(lv_color_t) + PIXEL_BUF_HEADER_LEN` bytes,
stores the pixel message right after the header, and broadcasts with
`ws_send_nocopy_bin_all`; there is no capacity check against the length
of `msg_buf` (a message longer than the buffer overruns it, which the
model records by `stored` exceeding the buffer length).  In either case
`lv_disp_flush_ready` is invoked exactly once.  `writeOk` is the
environment's per-slot `netconn_write` outcome and `w`/`h` the screen
resolution returned by `lv_disp_get_hor_res`/`lv_disp_get_ver_res`. -/
def websocket_driver_flush (writeOk : Nat → Bool) (w h : Nat)
    (area : lv_area_t) (pix : PixelBuf) (s : ServerState) :
    ServerState × FlushOut :=
  if s.websocket_connected then
    let size := lv_area_get_width area * lv_area_get_height area
    let hdr := set_msg_buf (size * bytesPerPixel pix + PIXEL_BUF_HEADER_LEN)
    let stored := hdr.1 ++ pix_payload w h area pix
    let b := ws_send_nocopy_bin_all writeOk s.clients s.websocket_connected
               s.pointer
    (⟨b.flag, b.clients, stored ++ s.msg_buf.drop stored.length, b.pointer⟩,
     ⟨stored, b.attempts, b.written, b.errCallbacks, 1⟩)
  else
    (s, ⟨[], [], [], [], 1⟩)

/-! ## Connection events -/

/-- The client lifecycle events a driver state can undergo: a client
connecting (slot registered, then `websocket_callback` with
`WEBSOCKET_CONNECT`), the three disconnect notifications, a flush (which
can itself disconnect clients on write failure), and an inbound binary
message. -/
inductive WsEvent where
  | connect (i : Nat)
  | disconnectExternal (i : Nat)
  | disconnectInternal (i : Nat)
  | disconnectError (i : Nat)
  | flushEvt (writeOk : Nat → Bool) (w h : Nat) (area : lv_area_t)
      (pix : PixelBuf)
  | binMsg (msg : List Nat) (len : Nat)

/-- Modelled from the spec: the websocket server component that owns the
client table and dispatches events to `websocket_callback` is not under
src/.  Per spec 4.4/4.5 a connection is registered (slot transitions to
Open) and the connect callback then fires; per spec §3 and 4.4 a
disconnect of any kind frees the slot, the corresponding callback
notifying the driver (so `num_connected_clients`, read inside the
callback, no longer counts the departed client — the count-based
availability semantics of spec 4.4).  The flush event applies
`websocket_driver_flush` from the source, whose write-failure path
invokes the callback before freeing the slot, exactly as
`ws_send_nocopy_bin_all` does. -/
def applyEvent (s : ServerState) : WsEvent → ServerState
  | .connect i =>
      let cs := s.clients.set i true
      let eff := websocket_callback cs s.websocket_connected s.pointer
                   .CONNECT [] 0
      ⟨eff.websocket_connected, cs, s.msg_buf, eff.pointer⟩
  | .disconnectExternal i =>
      let cs := ws_disconnect_client s.clients i
      let eff := websocket_callback cs s.websocket_connected s.pointer
                   .DISCONNECT_EXTERNAL [] 0
      ⟨eff.websocket_connected, cs, s.msg_buf, eff.pointer⟩
  | .disconnectInternal i =>
      let cs := ws_disconnect_client s.clients i
      let eff := websocket_callback cs s.websocket_connected s.pointer
                   .DISCONNECT_INTERNAL [] 0
      ⟨eff.websocket_connected, cs, s.msg_buf, eff.pointer⟩
  | .disconnectError i =>
      let cs := ws_disconnect_client s.clients i
      let eff := websocket_callback cs s.websocket_connected s.pointer
                   .DISCONNECT_ERROR [] 0
      ⟨eff.websocket_connected, cs, s.msg_buf, eff.pointer⟩
  | .flushEvt writeOk w h area pix =>
      (websocket_driver_flush writeOk w h area pix s).1
  | .binMsg msg len =>
      let eff := websocket_callback s.clients s.websocket_connected s.pointer
                   .BIN msg len
      ⟨eff.websocket_connected, s.clients, s.msg_buf, eff.pointer⟩

/-! ## Concrete states used by the counterexample and bug theorems -/

/-- A fresh driver state with a single client slot and a 27-byte scratch
buffer (the capacity `DISP_BUF_SIZE * sizeof(lv_color_t) +
STATIC_BUF_EXTRA_LEN` for a one-pixel display buffer at 32-bit depth):
no client connected, flag down, buffer zeroed. -/
def init27 : ServerState := ⟨false, [false], List.replicate 27 0, ⟨0, 0, 0⟩⟩

/-- A 1×1 region at the origin. -/
def area11 : lv_area_t := ⟨0, 0, 0, 0⟩

/-- A single black 32-bit pixel. -/
def pix1 : PixelBuf := .p32 [⟨0, 0, 0, 0⟩]

/-- A single 32-bit pixel with distinctive channel values. -/
def pix1b : PixelBuf := .p32 [⟨7, 8, 9, 10⟩]

/-- The state after client 0 connects. -/
def s1conn : ServerState := applyEvent init27 (.connect 0)

/-- The state reached from `init27` by: client 0 connects, then a flush
whose `netconn_write` fails.  The broadcast's write-failure path invokes
the `WEBSOCKET_DISCONNECT_ERROR` callback before `ws_disconnect_client`
frees the slot, so `num_connected_clients` still counts the failing
client and `websocket_connected` is left set. -/
def sStale : ServerState :=
  applyEvent s1conn (.flushEvt (fun _ => false) 1 1 area11 pix1)

/-- A horizontal 4×1 region: four pixels, whose encoded message
(2-byte frame header + 13-byte pixel header + 16 pixel bytes = 31 bytes)
exceeds the 27-byte capacity of `init27`'s scratch buffer. -/
def area41 : lv_area_t := ⟨0, 0, 3, 0⟩

/-- Four black 32-bit pixels for the oversize region. -/
def pix4 : PixelBuf :=
  .p32 [⟨0, 0, 0, 0⟩, ⟨0, 0, 0, 0⟩, ⟨0, 0, 0, 0⟩, ⟨0, 0, 0, 0⟩]

/-- Flushing the oversize 4×1 region in the connected state. -/
def flushOver : ServerState × FlushOut :=
  websocket_driver_flush (fun _ => true) 4 1 area41 pix4 s1conn

/-- Flushing a 1×1 region in the stale state `sStale`, in which zero
clients are open. -/
def flushStale : ServerState × FlushOut :=
  websocket_driver_flush (fun _ => true) 1 1 area11 pix1b sStale

/-! ## Theorems -/

/-- Claim C1: the claim says a flush whose encoded message exceeds the
scratch capacity rejects the frame, writing nothing to the buffer or any
client.  The code has no capacity check: in the reachable state `s1conn`
(one connected client, 27-byte scratch buffer) a flush of a 4-pixel
region encodes a 31-byte message, stores all 31 bytes (overrunning the
buffer), attempts the client write, and signals flush completion. -/
theorem flush_oversize_not_rejected :
    flushOver.2.stored.length = 31 ∧
    s1conn.msg_buf.length = 27 ∧
    27 < flushOver.2.stored.length ∧
    flushOver.2.attempts = [0] ∧
    flushOver.1.msg_buf ≠ s1conn.msg_buf ∧
    flushOver.2.flush_ready_calls = 1 := by decide

/-- Claim C2: the claim says `websocket_driver_available` equals
`countOpen() > 0` in every reachable state.  In the reachable state
`sStale` — client 0 connects, then a broadcast write failure disconnects
it — zero clients are open yet the availability flag is still `true`,
because `ws_send_nocopy_bin_all` invokes the `DISCONNECT_ERROR` callback
before freeing the slot, so `num_connected_clients` is nonzero inside
the callback. -/
theorem available_flag_stale_after_broadcast_failure :
    websocket_driver_available sStale = true ∧
    num_connected_clients sStale.clients = 0 := by decide

/-- Claim C6: the claim says a flush made while zero clients are
connected leaves `msg_buf` entirely unchanged.  In the reachable state
`sStale`, zero clients are open but `websocket_connected` is stale-true,
so a flush encodes the message into `msg_buf` (19 bytes stored, buffer
contents change); no client write is attempted and `lv_disp_flush_ready`
is still invoked exactly once, as the claim says. -/
theorem flush_writes_buffer_with_zero_clients :
    num_connected_clients sStale.clients = 0 ∧
    flushStale.1.msg_buf ≠ sStale.msg_buf ∧
    flushStale.2.stored.length = 19 ∧
    flushStale.2.attempts = [] ∧
    flushStale.2.flush_ready_calls = 1 := by decide

/-- Claim C7 counterexample: the claim says any inbound binary message
whose 64-bit length is not 5 leaves the pointer state unchanged.  The
handler compares `(uint32_t) len == 5`, so the length 2^32 + 5 — which
is not 5 — is accepted and overwrites the pointer state. -/
theorem bin_len_truncation_cex :
    (4294967301 : Nat) ≠ 5 ∧
    (websocket_callback [] false ⟨0, 0, 0⟩ .BIN [1, 0, 10, 0, 20]
        4294967301).pointer ≠ ⟨0, 0, 0⟩ := by decide

/-- Claim C7 (amended): an inbound binary message whose length truncated
to 32 bits is not 5 leaves the pointer state completely unchanged; the
message is discarded without any other effect. -/
theorem bin_wrong_len_ignored (clients : List Bool) (flag : Bool)
    (ptr : Pointer) (msg : List Nat) (len : Nat)
    (h : len % 4294967296 ≠ 5) :
    websocket_callback clients flag ptr .BIN msg len = ⟨flag, ptr, false⟩ := by
  simp [websocket_callback, h]

/-- Witness for C7's amended theorem at the 4-byte message of the spec's
test: length 4 is not 5 mod 2^32 and the pointer state is unchanged. -/
theorem bin_wrong_len_ignored_witness :
    (4 : Nat) % 4294967296 ≠ 5 ∧
    websocket_callback [true] true ⟨1, 2, 3⟩ .BIN [9, 9, 9, 9] 4 =
      ⟨true, ⟨1, 2, 3⟩, false⟩ :=
  ⟨by decide, bin_wrong_len_ignored [true] true ⟨1, 2, 3⟩ [9, 9, 9, 9] 4
      (by decide)⟩

/-- Claim C9: on a `WEBSOCKET_CONNECT` event the callback sets the
availability flag and invalidates the active screen (the
`lv_obj_invalidate(lv_disp_get_scr_act(...))` call), so the next render
pass re-flushes the full display for the new client. -/
theorem connect_sets_flag_and_invalidates (clients : List Bool)
    (flag : Bool) (ptr : Pointer) (msg : List Nat) (len : Nat) :
    (websocket_callback clients flag ptr .CONNECT msg len).websocket_connected
        = true ∧
    (websocket_callback clients flag ptr .CONNECT msg len).invalidate = true :=
  ⟨rfl, rfl⟩

/-- Claim C10: `websocket_driver_read` returns `false` ("no buffered
input remains") on every call, for every pointer state. -/
theorem read_never_reports_more (ptr : Pointer) :
    (websocket_driver_read ptr).2 = false := rfl

/-- Claim C3: for every payload length `L` (a `uint32_t` in the source),
`set_msg_buf` produces, byte for byte, the header of a final unmasked
binary frame in the variant matching L's bracket — `L ≤ 125`: 2-byte
header with L in the second byte's low 7 bits; `126 ≤ L ≤ 65535`:
length field 126 plus 2 big-endian length bytes (4 bytes);
`L > 65535`: length field 127 plus 8 big-endian length bytes (10
bytes) — and returns the header length 2, 4 or 10 accordingly. -/
theorem set_msg_buf_matches_spec (L : Nat) (hL : L < 4294967296) :
    (set_msg_buf L).1 = buildHeaderSpec L ∧
    (set_msg_buf L).2 = (buildHeaderSpec L).length ∧
    (set_msg_buf L).2 =
      (if L ≤ 125 then 2 else if L ≤ 65535 then 4 else 10) := by
  by_cases h1 : L ≤ 125
  · have h126 : (L == 126) = false := by simp; omega
    have h127 : (L == 127) = false := by simp; omega
    simp [set_msg_buf, buildHeaderSpec, WS_BYTE0_FIN_BIN, h1, h126, h127]
  · by_cases h2 : L < 65536
    · have h2' : L ≤ 65535 := by omega
      simp [set_msg_buf, buildHeaderSpec, WS_BYTE0_FIN_BIN, h1, h2, h2']
    · have h2' : ¬ L ≤ 65535 := by omega
      have e56 : L / 72057594037927936 = 0 := Nat.div_eq_of_lt (by omega)
      have e48 : L / 281474976710656 = 0 := Nat.div_eq_of_lt (by omega)
      have e40 : L / 1099511627776 = 0 := Nat.div_eq_of_lt (by omega)
      have e32 : L / 4294967296 = 0 := Nat.div_eq_of_lt (by omega)
      simp [set_msg_buf, buildHeaderSpec, WS_BYTE0_FIN_BIN, h1, h2, h2',
            e56, e48, e40, e32]

/-- Witness for C3 at the four boundary lengths 125, 126, 65535 and
65536 named by the claim. -/
theorem set_msg_buf_matches_spec_witness :
    (125 : Nat) < 4294967296 ∧
    ((set_msg_buf 125).1 = buildHeaderSpec 125 ∧
     (set_msg_buf 125).2 = (buildHeaderSpec 125).length ∧
     (set_msg_buf 125).2 =
       (if (125 : Nat) ≤ 125 then 2 else if (125 : Nat) ≤ 65535 then 4
        else 10)) ∧
    ((set_msg_buf 126).1 = buildHeaderSpec 126 ∧
     (set_msg_buf 126).2 = (buildHeaderSpec 126).length ∧
     (set_msg_buf 126).2 =
       (if (126 : Nat) ≤ 125 then 2 else if (126 : Nat) ≤ 65535 then 4
        else 10)) ∧
    ((set_msg_buf 65535).1 = buildHeaderSpec 65535 ∧
     (set_msg_buf 65535).2 = (buildHeaderSpec 65535).length ∧
     (set_msg_buf 65535).2 =
       (if (65535 : Nat) ≤ 125 then 2 else if (65535 : Nat) ≤ 65535 then 4
        else 10)) ∧
    ((set_msg_buf 65536).1 = buildHeaderSpec 65536 ∧
     (set_msg_buf 65536).2 = (buildHeaderSpec 65536).length ∧
     (set_msg_buf 65536).2 =
       (if (65536 : Nat) ≤ 125 then 2 else if (65536 : Nat) ≤ 65535 then 4
        else 10)) :=
  ⟨by decide,
   set_msg_buf_matches_spec 125 (by decide),
   set_msg_buf_matches_spec 126 (by decide),
   set_msg_buf_matches_spec 65535 (by decide),
   set_msg_buf_matches_spec 65536 (by decide)⟩

/-! ## The wire message layout (claim C4) -/

/-- Following the spec's words (4.2): 32-bit pixels encode as the four
bytes R, G, B, A, one pixel after the other in source order. -/
def pixBytesSpec32 : List lv_color32_t → List Nat
  | [] => []
  | c :: t => [c.red, c.green, c.blue, c.alpha] ++ pixBytesSpec32 t

/-- Following the spec's words (4.2): 16-bit pixels encode as the two
big-endian bytes of the 565 value. -/
def pixBytesSpec16 : List lv_color16_t → List Nat
  | [] => []
  | c :: t => [c.full / 256, c.full % 256] ++ pixBytesSpec16 t

/-- Following the spec's words (4.2): 8-bit pixels encode as one byte,
value as-is. -/
def pixBytesSpec8 : List lv_color8_t → List Nat
  | [] => []
  | c :: t => [c.full] ++ pixBytesSpec8 t

/-- The spec's per-format pixel encoding, dispatched on the format. -/
def pixBytesSpec : PixelBuf → List Nat
  | .p32 px => pixBytesSpec32 px
  | .p16 px => pixBytesSpec16 px
  | .p8 px => pixBytesSpec8 px

/-- Following the spec's words (§3 WireMessage): the message after the
frame header is `[pixel-depth:1][screen-width:2][screen-height:2][x1:2]
[y1:2][x2:2][y2:2][pixel-payload]`, all multi-byte integers
big-endian. -/
def wireBodySpec (w h : Nat) (a : lv_area_t) (pix : PixelBuf) : List Nat :=
  [pixelDepth pix] ++ [w / 256, w % 256] ++ [h / 256, h % 256] ++
  [a.x1 / 256, a.x1 % 256] ++ [a.y1 / 256, a.y1 % 256] ++
  [a.x2 / 256, a.x2 % 256] ++ [a.y2 / 256, a.y2 % 256] ++ pixBytesSpec pix

/-- Well-formedness of a pixel buffer: every channel/value fits its C
field width (8-bit channels, 16-bit 565 value, 8-bit 332 value). -/
def PixelBuf.wf : PixelBuf → Prop
  | .p32 px => ∀ c ∈ px,
      c.red < 256 ∧ c.green < 256 ∧ c.blue < 256 ∧ c.alpha < 256
  | .p16 px => ∀ c ∈ px, c.full < 65536
  | .p8 px => ∀ c ∈ px, c.full < 256

instance (pix : PixelBuf) : Decidable pix.wf :=
  match pix with
  | .p32 px => inferInstanceAs (Decidable (∀ c ∈ px,
      c.red < 256 ∧ c.green < 256 ∧ c.blue < 256 ∧ c.alpha < 256))
  | .p16 px => inferInstanceAs (Decidable (∀ c ∈ px, c.full < 65536))
  | .p8 px => inferInstanceAs (Decidable (∀ c ∈ px, c.full < 256))

theorem foldl32_eq (px : List lv_color32_t) (acc : List Nat)
    (h : ∀ c ∈ px,
      c.red < 256 ∧ c.green < 256 ∧ c.blue < 256 ∧ c.alpha < 256) :
    px.foldl (fun b c =>
        b ++ [c.red % 256, c.green % 256, c.blue % 256, c.alpha % 256]) acc
      = acc ++ pixBytesSpec32 px := by
  induction px generalizing acc with
  | nil => simp [pixBytesSpec32]
  | cons c t ih =>
      have hc := h c (by simp)
      have ht : ∀ x ∈ t,
          x.red < 256 ∧ x.green < 256 ∧ x.blue < 256 ∧ x.alpha < 256 :=
        fun x hx => h x (by simp [hx])
      simp only [List.foldl_cons, pixBytesSpec32, ih _ ht,
        Nat.mod_eq_of_lt hc.1, Nat.mod_eq_of_lt hc.2.1,
        Nat.mod_eq_of_lt hc.2.2.1, Nat.mod_eq_of_lt hc.2.2.2,
        List.append_assoc]

theorem foldl16_eq (px : List lv_color16_t) (acc : List Nat)
    (h : ∀ c ∈ px, c.full < 65536) :
    px.foldl (fun b c => b ++ [c.full / 256 % 256, c.full % 256]) acc
      = acc ++ pixBytesSpec16 px := by
  induction px generalizing acc with
  | nil => simp [pixBytesSpec16]
  | cons c t ih =>
      have hc := h c (by simp)
      have ht : ∀ x ∈ t, x.full < 65536 := fun x hx => h x (by simp [hx])
      have hhi : c.full / 256 % 256 = c.full / 256 :=
        Nat.mod_eq_of_lt (by omega)
      simp only [List.foldl_cons, pixBytesSpec16, ih _ ht, hhi,
        List.append_assoc]

theorem foldl8_eq (px : List lv_color8_t) (acc : List Nat)
    (h : ∀ c ∈ px, c.full < 256) :
    px.foldl (fun b c => b ++ [c.full % 256]) acc
      = acc ++ pixBytesSpec8 px := by
  induction px generalizing acc with
  | nil => simp [pixBytesSpec8]
  | cons c t ih =>
      have hc := h c (by simp)
      have ht : ∀ x ∈ t, x.full < 256 := fun x hx => h x (by simp [hx])
      simp only [List.foldl_cons, pixBytesSpec8, ih _ ht,
        Nat.mod_eq_of_lt hc, List.append_assoc]

theorem pixBytesSpec32_length (px : List lv_color32_t) :
    (pixBytesSpec32 px).length = 4 * px.length := by
  induction px with
  | nil => simp [pixBytesSpec32]
  | cons c t ih => simp [pixBytesSpec32, ih]; omega

theorem pixBytesSpec16_length (px : List lv_color16_t) :
    (pixBytesSpec16 px).length = 2 * px.length := by
  induction px with
  | nil => simp [pixBytesSpec16]
  | cons c t ih => simp [pixBytesSpec16, ih]; omega

theorem pixBytesSpec8_length (px : List lv_color8_t) :
    (pixBytesSpec8 px).length = px.length := by
  induction px with
  | nil => simp [pixBytesSpec8]
  | cons c t ih => simp [pixBytesSpec8, ih]

theorem stored_is_header_then_payload (writeOk : Nat → Bool) (w h : Nat)
    (a : lv_area_t) (pix : PixelBuf) (s : ServerState)
    (hconn : s.websocket_connected = true) :
    (websocket_driver_flush writeOk w h a pix s).2.stored =
      (set_msg_buf (lv_area_get_width a * lv_area_get_height a *
        bytesPerPixel pix + PIXEL_BUF_HEADER_LEN)).1 ++
        pix_payload w h a pix := by
  simp [websocket_driver_flush, hconn]

/-- Claim C4: for every region, screen size and pixel buffer, the packed
wire message placed after the frame header is exactly
`[pixel-depth:1][screen-width:2][screen-height:2][x1:2][y1:2][x2:2][y2:2]`
(multi-byte fields big-endian) followed by one encoded pixel per source
pixel in source order — 4 bytes R,G,B,A at 32 bit, 2 big-endian bytes of
the 565 value at 16 bit, 1 byte as-is at 8 bit — its length is exactly
`13 + pixelCount * bytesPerPixel`, and the depth tag byte is 32, 16 or 8
with the matching pixel width. -/
theorem pix_payload_matches_spec (writeOk : Nat → Bool) (w h : Nat)
    (a : lv_area_t) (pix : PixelBuf) (s : ServerState)
    (hconn : s.websocket_connected = true)
    (hw : w < 65536) (hh : h < 65536) (hx1 : a.x1 < 65536)
    (hy1 : a.y1 < 65536) (hx2 : a.x2 < 65536) (hy2 : a.y2 < 65536)
    (hpix : pix.wf) :
    pix_payload w h a pix = wireBodySpec w h a pix ∧
    (pix_payload w h a pix).length =
      13 + pixelCount pix * bytesPerPixel pix ∧
    (pix_payload w h a pix).getD 0 256 = pixelDepth pix ∧
    ((pixelDepth pix = 32 ∧ bytesPerPixel pix = 4) ∨
     (pixelDepth pix = 16 ∧ bytesPerPixel pix = 2) ∨
     (pixelDepth pix = 8 ∧ bytesPerPixel pix = 1)) ∧
    (websocket_driver_flush writeOk w h a pix s).2.stored =
      (set_msg_buf (lv_area_get_width a * lv_area_get_height a *
        bytesPerPixel pix + PIXEL_BUF_HEADER_LEN)).1 ++
        pix_payload w h a pix := by
  have hwhi : w / 256 % 256 = w / 256 := Nat.mod_eq_of_lt (by omega)
  have hhhi : h / 256 % 256 = h / 256 := Nat.mod_eq_of_lt (by omega)
  have hx1hi : a.x1 / 256 % 256 = a.x1 / 256 := Nat.mod_eq_of_lt (by omega)
  have hy1hi : a.y1 / 256 % 256 = a.y1 / 256 := Nat.mod_eq_of_lt (by omega)
  have hx2hi : a.x2 / 256 % 256 = a.x2 / 256 := Nat.mod_eq_of_lt (by omega)
  have hy2hi : a.y2 / 256 % 256 = a.y2 / 256 := Nat.mod_eq_of_lt (by omega)
  have hstored := stored_is_header_then_payload writeOk w h a pix s hconn
  cases pix with
  | p32 px =>
      have heq : pix_payload w h a (.p32 px) =
          wireBodySpec w h a (.p32 px) := by
        simp only [pix_payload, load_pix_header, wireBodySpec, pixelDepth,
          pixBytesSpec, loadPixels, foldl32_eq px [] hpix,
          hwhi, hhhi, hx1hi, hy1hi, hx2hi, hy2hi, List.nil_append]
        norm_num
      refine ⟨heq, ?_, ?_, Or.inl ⟨rfl, rfl⟩, hstored⟩
      · rw [heq]
        simp [wireBodySpec, pixBytesSpec, pixBytesSpec32_length, pixelCount,
          bytesPerPixel]
        omega
      · simp [pix_payload, load_pix_header, pixelDepth]
  | p16 px =>
      have heq : pix_payload w h a (.p16 px) =
          wireBodySpec w h a (.p16 px) := by
        simp only [pix_payload, load_pix_header, wireBodySpec, pixelDepth,
          pixBytesSpec, loadPixels, foldl16_eq px [] hpix,
          hwhi, hhhi, hx1hi, hy1hi, hx2hi, hy2hi, List.nil_append]
        norm_num
      refine ⟨heq, ?_, ?_, Or.inr (Or.inl ⟨rfl, rfl⟩), hstored⟩
      · rw [heq]
        simp [wireBodySpec, pixBytesSpec, pixBytesSpec16_length, pixelCount,
          bytesPerPixel]
        omega
      · simp [pix_payload, load_pix_header, pixelDepth]
  | p8 px =>
      have heq : pix_payload w h a (.p8 px) =
          wireBodySpec w h a (.p8 px) := by
        simp only [pix_payload, load_pix_header, wireBodySpec, pixelDepth,
          pixBytesSpec, loadPixels, foldl8_eq px [] hpix,
          hwhi, hhhi, hx1hi, hy1hi, hx2hi, hy2hi, List.nil_append]
        norm_num
      refine ⟨heq, ?_, ?_, Or.inr (Or.inr ⟨rfl, rfl⟩), hstored⟩
      · rw [heq]
        simp [wireBodySpec, pixBytesSpec, pixBytesSpec8_length, pixelCount,
          bytesPerPixel]
        omega
      · simp [pix_payload, load_pix_header, pixelDepth]

/-- A 1×1 region used by the C4 witness. -/
def areaW : lv_area_t := ⟨2, 3, 2, 3⟩

/-- A one-pixel 32-bit buffer used by the C4 witness. -/
def pixW : PixelBuf := .p32 [⟨1, 2, 3, 4⟩]

/-- Witness for C4 at a 1×1 region with one 32-bit pixel on a 100×50
screen, flushed in the connected state `s1conn`. -/
theorem pix_payload_matches_spec_witness :
    (s1conn.websocket_connected = true ∧ (100 : Nat) < 65536 ∧
     (50 : Nat) < 65536 ∧ areaW.x1 < 65536 ∧ areaW.y1 < 65536 ∧
     areaW.x2 < 65536 ∧ areaW.y2 < 65536 ∧ pixW.wf) ∧
    (pix_payload 100 50 areaW pixW = wireBodySpec 100 50 areaW pixW ∧
     (pix_payload 100 50 areaW pixW).length =
       13 + pixelCount pixW * bytesPerPixel pixW ∧
     (pix_payload 100 50 areaW pixW).getD 0 256 = pixelDepth pixW ∧
     ((pixelDepth pixW = 32 ∧ bytesPerPixel pixW = 4) ∨
      (pixelDepth pixW = 16 ∧ bytesPerPixel pixW = 2) ∨
      (pixelDepth pixW = 8 ∧ bytesPerPixel pixW = 1)) ∧
     (websocket_driver_flush (fun _ => true) 100 50 areaW pixW
         s1conn).2.stored =
       (set_msg_buf (lv_area_get_width areaW * lv_area_get_height areaW *
         bytesPerPixel pixW + PIXEL_BUF_HEADER_LEN)).1 ++
         pix_payload 100 50 areaW pixW) :=
  ⟨⟨by decide, by decide, by decide, by decide, by decide, by decide,
    by decide, by decide⟩,
   pix_payload_matches_spec (fun _ => true) 100 50 areaW pixW s1conn
     (by decide) (by decide) (by decide) (by decide) (by decide) (by decide)
     (by decide) (by decide)⟩

/-! ## Broadcast partial-failure isolation (claim C5) -/

theorem ws_is_connected_eq (clients : List Bool) (i : Nat) :
    ws_is_connected clients i = clients.getD i false := rfl

theorem getD_set_ne (l : List Bool) (i k : Nat) (b : Bool) (h : i ≠ k) :
    (l.set i b).getD k false = l.getD k false := by
  simp [List.getD_eq_getElem?_getD, List.getElem?_set_ne h]

theorem getD_set_self_false (l : List Bool) (k : Nat) :
    (l.set k false).getD k false = false := by
  by_cases hk : k < l.length
  · simp [List.getD_eq_getElem?_getD, List.getElem?_set_eq_of_lt _ hk]
  · have hlen : (l.set k false).length ≤ k := by
      simpa using Nat.le_of_not_lt hk
    rw [List.getD_eq_getElem?_getD, List.getElem?_eq_none hlen]
    rfl

theorem ws_send_step_conn_ok (writeOk : Nat → Bool) (st : BroadcastState)
    (i : Nat) (hc : st.clients.getD i false = true) (hw : writeOk i = true) :
    ws_send_step writeOk st i =
      { st with ret := st.ret + 1,
                attempts := st.attempts ++ [i],
                written := st.written ++ [i] } := by
  simp only [ws_send_step, ws_is_connected_eq, hc, hw, if_true]

theorem ws_send_step_conn_fail (writeOk : Nat → Bool) (st : BroadcastState)
    (i : Nat) (hc : st.clients.getD i false = true) (hw : writeOk i = false) :
    ws_send_step writeOk st i =
      { st with
          flag := (websocket_callback st.clients st.flag st.pointer
            .DISCONNECT_ERROR [] 0).websocket_connected,
          pointer := (websocket_callback st.clients st.flag st.pointer
            .DISCONNECT_ERROR [] 0).pointer,
          clients := ws_disconnect_client st.clients i,
          attempts := st.attempts ++ [i],
          errCallbacks := st.errCallbacks ++ [i] } := by
  simp only [ws_send_step, ws_is_connected_eq, hc, hw, if_true,
    Bool.false_eq_true, if_false]

theorem ws_send_step_not_conn (writeOk : Nat → Bool) (st : BroadcastState)
    (i : Nat) (hc : st.clients.getD i false = false) :
    ws_send_step writeOk st i = st := by
  simp only [ws_send_step, ws_is_connected_eq, hc, Bool.false_eq_true,
    if_false]

theorem ws_step_clients_ne (writeOk : Nat → Bool) (st : BroadcastState)
    (i k : Nat) (h : i ≠ k) :
    (ws_send_step writeOk st i).clients.getD k false
      = st.clients.getD k false := by
  by_cases hc : st.clients.getD i false = true
  · by_cases hw : writeOk i = true
    · rw [ws_send_step_conn_ok writeOk st i hc hw]
    · rw [ws_send_step_conn_fail writeOk st i hc
        (Bool.not_eq_true _ ▸ hw : writeOk i = false)]
      exact getD_set_ne st.clients i k false h
  · rw [ws_send_step_not_conn writeOk st i
      (Bool.not_eq_true _ ▸ hc : st.clients.getD i false = false)]


theorem bool_eq_false {b : Bool} (h : ¬ b = true) : b = false :=
  Bool.not_eq_true _ ▸ h

theorem ws_step_attempts_mono (writeOk : Nat → Bool) (st : BroadcastState)
    (i x : Nat) (h : x ∈ st.attempts) :
    x ∈ (ws_send_step writeOk st i).attempts := by
  by_cases hc : st.clients.getD i false = true
  · by_cases hw : writeOk i = true
    · rw [ws_send_step_conn_ok writeOk st i hc hw]
      exact List.mem_append_left _ h
    · rw [ws_send_step_conn_fail writeOk st i hc (bool_eq_false hw)]
      exact List.mem_append_left _ h
  · rw [ws_send_step_not_conn writeOk st i (bool_eq_false hc)]
    exact h

theorem ws_step_written_mono (writeOk : Nat → Bool) (st : BroadcastState)
    (i x : Nat) (h : x ∈ st.written) :
    x ∈ (ws_send_step writeOk st i).written := by
  by_cases hc : st.clients.getD i false = true
  · by_cases hw : writeOk i = true
    · rw [ws_send_step_conn_ok writeOk st i hc hw]
      exact List.mem_append_left _ h
    · rw [ws_send_step_conn_fail writeOk st i hc (bool_eq_false hw)]
      exact h
  · rw [ws_send_step_not_conn writeOk st i (bool_eq_false hc)]
    exact h

theorem ws_step_errCb_mono (writeOk : Nat → Bool) (st : BroadcastState)
    (i x : Nat) (h : x ∈ st.errCallbacks) :
    x ∈ (ws_send_step writeOk st i).errCallbacks := by
  by_cases hc : st.clients.getD i false = true
  · by_cases hw : writeOk i = true
    · rw [ws_send_step_conn_ok writeOk st i hc hw]
      exact h
    · rw [ws_send_step_conn_fail writeOk st i hc (bool_eq_false hw)]
      exact List.mem_append_left _ h
  · rw [ws_send_step_not_conn writeOk st i (bool_eq_false hc)]
    exact h

theorem ws_fold_attempts_mono (writeOk : Nat → Bool) (is : List Nat)
    (st : BroadcastState) (x : Nat) (h : x ∈ st.attempts) :
    x ∈ (List.foldl (ws_send_step writeOk) st is).attempts := by
  induction is generalizing st with
  | nil => exact h
  | cons i t ih => exact ih _ (ws_step_attempts_mono writeOk st i x h)

theorem ws_fold_written_mono (writeOk : Nat → Bool) (is : List Nat)
    (st : BroadcastState) (x : Nat) (h : x ∈ st.written) :
    x ∈ (List.foldl (ws_send_step writeOk) st is).written := by
  induction is generalizing st with
  | nil => exact h
  | cons i t ih => exact ih _ (ws_step_written_mono writeOk st i x h)

theorem ws_fold_errCb_mono (writeOk : Nat → Bool) (is : List Nat)
    (st : BroadcastState) (x : Nat) (h : x ∈ st.errCallbacks) :
    x ∈ (List.foldl (ws_send_step writeOk) st is).errCallbacks := by
  induction is generalizing st with
  | nil => exact h
  | cons i t ih => exact ih _ (ws_step_errCb_mono writeOk st i x h)

theorem ws_step_clients_false (writeOk : Nat → Bool) (st : BroadcastState)
    (i k : Nat) (h : st.clients.getD k false = false) :
    (ws_send_step writeOk st i).clients.getD k false = false := by
  by_cases hik : i = k
  · subst hik
    rw [ws_send_step_not_conn writeOk st i (by simpa using h)]
    exact h
  · rw [ws_step_clients_ne writeOk st i k hik]
    exact h

theorem ws_fold_clients_false (writeOk : Nat → Bool) (is : List Nat)
    (st : BroadcastState) (k : Nat) (h : st.clients.getD k false = false) :
    (List.foldl (ws_send_step writeOk) st is).clients.getD k false
      = false := by
  induction is generalizing st with
  | nil => exact h
  | cons i t ih => exact ih _ (ws_step_clients_false writeOk st i k h)

theorem ws_step_clients_ok (writeOk : Nat → Bool) (st : BroadcastState)
    (i k : Nat) (hok : writeOk k = true) :
    (ws_send_step writeOk st i).clients.getD k false
      = st.clients.getD k false := by
  by_cases hik : i = k
  · subst hik
    by_cases hc : st.clients.getD i false = true
    · rw [ws_send_step_conn_ok writeOk st i hc hok]
    · rw [ws_send_step_not_conn writeOk st i (bool_eq_false hc)]
  · exact ws_step_clients_ne writeOk st i k hik

theorem ws_fold_clients_ok (writeOk : Nat → Bool) (is : List Nat)
    (st : BroadcastState) (k : Nat) (hok : writeOk k = true) :
    (List.foldl (ws_send_step writeOk) st is).clients.getD k false
      = st.clients.getD k false := by
  induction is generalizing st with
  | nil => rfl
  | cons i t ih =>
      rw [List.foldl_cons, ih (ws_send_step writeOk st i),
        ws_step_clients_ok writeOk st i k hok]

theorem ws_fold_attempt (writeOk : Nat → Bool) (is : List Nat)
    (st : BroadcastState) (k : Nat) (hin : k ∈ is)
    (hk : st.clients.getD k false = true) :
    k ∈ (List.foldl (ws_send_step writeOk) st is).attempts := by
  induction is generalizing st with
  | nil => cases hin
  | cons i t ih =>
      rw [List.foldl_cons]
      by_cases hik : i = k
      · subst hik
        have hstep : i ∈ (ws_send_step writeOk st i).attempts := by
          by_cases hw : writeOk i = true
          · rw [ws_send_step_conn_ok writeOk st i hk hw]
            exact List.mem_append_right _ (List.mem_singleton.mpr rfl)
          · rw [ws_send_step_conn_fail writeOk st i hk (bool_eq_false hw)]
            exact List.mem_append_right _ (List.mem_singleton.mpr rfl)
        exact ws_fold_attempts_mono writeOk t _ i hstep
      · rcases List.mem_cons.mp hin with h | h
        · exact absurd h.symm hik
        · exact ih (ws_send_step writeOk st i) h
            (by rw [ws_step_clients_ne writeOk st i k hik]; exact hk)

theorem ws_fold_fail (writeOk : Nat → Bool) (is : List Nat)
    (st : BroadcastState) (k : Nat) (hin : k ∈ is)
    (hk : st.clients.getD k false = true) (hko : writeOk k = false) :
    k ∈ (List.foldl (ws_send_step writeOk) st is).errCallbacks ∧
    (List.foldl (ws_send_step writeOk) st is).clients.getD k false
      = false := by
  induction is generalizing st with
  | nil => cases hin
  | cons i t ih =>
      rw [List.foldl_cons]
      by_cases hik : i = k
      · subst hik
        rw [ws_send_step_conn_fail writeOk st i hk hko]
        constructor
        · exact ws_fold_errCb_mono writeOk t _ i
            (List.mem_append_right _ (List.mem_singleton.mpr rfl))
        · exact ws_fold_clients_false writeOk t _ i
            (by simpa [ws_disconnect_client] using
              getD_set_self_false st.clients i)
      · rcases List.mem_cons.mp hin with h | h
        · exact absurd h.symm hik
        · exact ih (ws_send_step writeOk st i) h
            (by rw [ws_step_clients_ne writeOk st i k hik]; exact hk)

theorem ws_fold_ok (writeOk : Nat → Bool) (is : List Nat)
    (st : BroadcastState) (k : Nat) (hin : k ∈ is)
    (hk : st.clients.getD k false = true) (hko : writeOk k = true) :
    k ∈ (List.foldl (ws_send_step writeOk) st is).written ∧
    (List.foldl (ws_send_step writeOk) st is).clients.getD k false
      = true := by
  induction is generalizing st with
  | nil => cases hin
  | cons i t ih =>
      rw [List.foldl_cons]
      by_cases hik : i = k
      · subst hik
        constructor
        · rw [ws_send_step_conn_ok writeOk st i hk hko]
          exact ws_fold_written_mono writeOk t _ i
            (List.mem_append_right _ (List.mem_singleton.mpr rfl))
        · rw [ws_fold_clients_ok writeOk t (ws_send_step writeOk st i) i hko,
            ws_step_clients_ok writeOk st i i hko]
          exact hk
      · rcases List.mem_cons.mp hin with h | h
        · exact absurd h.symm hik
        · exact ih (ws_send_step writeOk st i) h
            (by rw [ws_step_clients_ne writeOk st i k hik]; exact hk)

/-- Claim C5: during the broadcast loop, a write failure on an open
slot `k` invokes that client's disconnect-error notification and closes
that slot alone, and the loop still attempts the write on every open
slot: any other open slot `j` whose write succeeds is written and stays
open.  In particular, with 3 open clients where client 2's write fails,
clients 1 and 3 are still written and client 2 transitions to closed
(witness below). -/
theorem broadcast_failure_isolation (clients : List Bool) (flag : Bool)
    (ptr : Pointer) (writeOk : Nat → Bool) (k j : Nat)
    (hkl : k < clients.length) (hk : clients.getD k false = true)
    (hkf : writeOk k = false)
    (hjl : j < clients.length) (hj : clients.getD j false = true)
    (hjo : writeOk j = true) :
    k ∈ (ws_send_nocopy_bin_all writeOk clients flag ptr).attempts ∧
    k ∈ (ws_send_nocopy_bin_all writeOk clients flag ptr).errCallbacks ∧
    (ws_send_nocopy_bin_all writeOk clients flag ptr).clients.getD k false
      = false ∧
    j ∈ (ws_send_nocopy_bin_all writeOk clients flag ptr).attempts ∧
    j ∈ (ws_send_nocopy_bin_all writeOk clients flag ptr).written ∧
    (ws_send_nocopy_bin_all writeOk clients flag ptr).clients.getD j false
      = true := by
  unfold ws_send_nocopy_bin_all
  have hfail := ws_fold_fail writeOk (List.range clients.length)
    ⟨0, clients, flag, ptr, [], [], []⟩ k (List.mem_range.mpr hkl) hk hkf
  have hok := ws_fold_ok writeOk (List.range clients.length)
    ⟨0, clients, flag, ptr, [], [], []⟩ j (List.mem_range.mpr hjl) hj hjo
  exact ⟨ws_fold_attempt writeOk (List.range clients.length) _ k
           (List.mem_range.mpr hkl) hk,
         hfail.1, hfail.2,
         ws_fold_attempt writeOk (List.range clients.length) _ j
           (List.mem_range.mpr hjl) hj,
         hok.1, hok.2⟩

/-- The per-slot write outcome of the C5 witness scenario: every write
succeeds except the one to slot 1 (the middle of three clients). -/
def wOk3 : Nat → Bool := fun i => i != 1

/-- The three-client registry of the C5 witness scenario. -/
def cs3 : List Bool := [true, true, true]

/-- Witness for C5 at the claim's concrete scenario: three open clients,
client 2 (slot 1) fails; clients 1 and 3 (slots 0 and 2) are written
and stay open, slot 1 gets the disconnect-error callback and closes. -/
theorem broadcast_failure_isolation_witness :
    ((1 : Nat) < cs3.length ∧ cs3.getD 1 false = true ∧ wOk3 1 = false ∧
     (0 : Nat) < cs3.length ∧ cs3.getD 0 false = true ∧ wOk3 0 = true ∧
     (2 : Nat) < cs3.length ∧ cs3.getD 2 false = true ∧ wOk3 2 = true) ∧
    (1 ∈ (ws_send_nocopy_bin_all wOk3 cs3 true ⟨0, 0, 0⟩).attempts ∧
     1 ∈ (ws_send_nocopy_bin_all wOk3 cs3 true ⟨0, 0, 0⟩).errCallbacks ∧
     (ws_send_nocopy_bin_all wOk3 cs3 true ⟨0, 0, 0⟩).clients.getD 1 false
       = false ∧
     0 ∈ (ws_send_nocopy_bin_all wOk3 cs3 true ⟨0, 0, 0⟩).attempts ∧
     0 ∈ (ws_send_nocopy_bin_all wOk3 cs3 true ⟨0, 0, 0⟩).written ∧
     (ws_send_nocopy_bin_all wOk3 cs3 true ⟨0, 0, 0⟩).clients.getD 0 false
       = true) ∧
    (1 ∈ (ws_send_nocopy_bin_all wOk3 cs3 true ⟨0, 0, 0⟩).attempts ∧
     1 ∈ (ws_send_nocopy_bin_all wOk3 cs3 true ⟨0, 0, 0⟩).errCallbacks ∧
     (ws_send_nocopy_bin_all wOk3 cs3 true ⟨0, 0, 0⟩).clients.getD 1 false
       = false ∧
     2 ∈ (ws_send_nocopy_bin_all wOk3 cs3 true ⟨0, 0, 0⟩).attempts ∧
     2 ∈ (ws_send_nocopy_bin_all wOk3 cs3 true ⟨0, 0, 0⟩).written ∧
     (ws_send_nocopy_bin_all wOk3 cs3 true ⟨0, 0, 0⟩).clients.getD 2 false
       = true) :=
  ⟨⟨by decide, by decide, by decide, by decide, by decide, by decide,
    by decide, by decide, by decide⟩,
   broadcast_failure_isolation cs3 true ⟨0, 0, 0⟩ wOk3 1 0 (by decide)
     (by decide) (by decide) (by decide) (by decide) (by decide),
   broadcast_failure_isolation cs3 true ⟨0, 0, 0⟩ wOk3 1 2 (by decide)
     (by decide) (by decide) (by decide) (by decide) (by decide)⟩

/-! ## Input coalescing (claim C8) -/

/-- The pointer value an accepted 5-byte message writes wholesale:
flag byte, then x and y assembled big-endian from bytes 1–2 and 3–4. -/
def binPointerOf (m : List Nat) : Pointer :=
  ⟨m.getD 0 0 % 256,
   256 * (m.getD 1 0 % 256) + m.getD 2 0 % 256,
   256 * (m.getD 3 0 % 256) + m.getD 4 0 % 256⟩

/-- Delivering a sequence of inbound binary messages to the driver, each
with its actual byte length. -/
def applyBinMsgs (s : ServerState) (ms : List (List Nat)) : ServerState :=
  List.foldl (fun st x => applyEvent st (.binMsg x x.length)) s ms

theorem binMsg_fold_last (ms : List (List Nat)) (m : List Nat)
    (s : ServerState)
    (hlast : ms.getLast? = some m) (h5 : ∀ x ∈ ms, x.length = 5) :
    (applyBinMsgs s ms).pointer = binPointerOf m := by
  induction ms generalizing s with
  | nil => cases hlast
  | cons a t ih =>
      cases t with
      | nil =>
          have hm : m = a := by simpa using hlast.symm
          subst hm
          have ha : m.length = 5 := h5 m (by simp)
          have hmod : (5 : Nat) % 4294967296 = 5 := by norm_num
          simp [applyBinMsgs, applyEvent, websocket_callback, ha, hmod,
            binPointerOf]
      | cons b u =>
          have hlast' : (b :: u).getLast? = some m := by
            simpa [List.getLast?_cons_cons] using hlast
          have h5' : ∀ x ∈ b :: u, x.length = 5 :=
            fun x hx => h5 x (by simp [hx])
          simpa [applyBinMsgs] using
            ih (applyEvent s (.binMsg a a.length)) hlast' h5'

/-- Claim C8: after any sequence of accepted 5-byte inbound messages,
`websocket_driver_read` returns the state written wholesale by the last
message only — earlier messages (and the prior state) are coalesced
away — with pressed true iff that message's flag byte is non-zero and
with x and y decoded as the big-endian 16-bit values of bytes 1–2 and
3–4 (returned through the driver's `int16_t` coordinate cast). -/
theorem read_after_bin_sequence (s : ServerState) (ms : List (List Nat))
    (m : List Nat) (hlast : ms.getLast? = some m)
    (h5 : ∀ x ∈ ms, x.length = 5) :
    (applyBinMsgs s ms).pointer = binPointerOf m ∧
    websocket_driver_read (applyBinMsgs s ms).pointer =
      (⟨toInt16 (256 * (m.getD 1 0 % 256) + m.getD 2 0 % 256),
        toInt16 (256 * (m.getD 3 0 % 256) + m.getD 4 0 % 256),
        !(m.getD 0 0 % 256 == 0)⟩, false) ∧
    ((websocket_driver_read (applyBinMsgs s ms).pointer).1.pressed = true ↔
      m.getD 0 0 % 256 ≠ 0) := by
  have hp := binMsg_fold_last ms m s hlast h5
  refine ⟨hp, ?_, ?_⟩
  · rw [hp]
    rfl
  · rw [hp]
    simp [websocket_driver_read, binPointerOf]

/-- The two-message sequence of the claim's example. -/
def msW : List (List Nat) := [[1, 0, 10, 0, 20], [0, 0, 30, 0, 40]]

/-- Witness for C8 at the claim's example: after `[1,0,10,0,20]` then
`[0,0,30,0,40]`, the read returns pressed false, x = 30, y = 40. -/
theorem read_after_bin_sequence_witness :
    (msW.getLast? = some [0, 0, 30, 0, 40] ∧
     ∀ x ∈ msW, x.length = 5) ∧
    ((applyBinMsgs init27 msW).pointer = binPointerOf [0, 0, 30, 0, 40] ∧
     websocket_driver_read (applyBinMsgs init27 msW).pointer =
       (⟨toInt16 (256 * ([0, 0, 30, 0, 40].getD 1 0 % 256) +
           [0, 0, 30, 0, 40].getD 2 0 % 256),
         toInt16 (256 * ([0, 0, 30, 0, 40].getD 3 0 % 256) +
           [0, 0, 30, 0, 40].getD 4 0 % 256),
         !([0, 0, 30, 0, 40].getD 0 0 % 256 == 0)⟩, false) ∧
     ((websocket_driver_read (applyBinMsgs init27 msW).pointer).1.pressed
         = true ↔ [0, 0, 30, 0, 40].getD 0 0 % 256 ≠ 0)) ∧
    websocket_driver_read (applyBinMsgs init27 msW).pointer =
      (⟨30, 40, false⟩, false) :=
  ⟨⟨by decide, by decide⟩,
   read_after_bin_sequence init27 msW [0, 0, 30, 0, 40] (by decide)
     (by decide),
   by decide⟩

end WsDriver
